import Mathlib

/-!
Verification model of the Homevolt Local API client
(`custom_components/homevolt_local/api.py`).

The Python client is embedded shallowly:

* JSON values are the inductive `Json`; Python dict lookups become
  association-list lookups.
* The HTTP transport is abstracted by an oracle `out : Nat → AttemptOut`
  giving the outcome observed by each GET attempt (2xx body, bare status
  code, or network-level failure), and the random jitter draw of attempt
  `n` is the oracle value `jit n : ℚ`.
* `HomevoltApi._request` becomes `runRequest`, a fuel-indexed loop that
  also records the backoff sleeps it performs and how many attempts it
  made.  Exceptions become the `ApiErr` error channel of `Except`.
* The per-endpoint cache is a map `String → Option CacheEntry`; the
  monotonic clock readings are explicit rational arguments.
-/

namespace Homevolt

/-- A JSON value as manipulated by the Python client (numbers are modelled
as rationals). -/
inductive Json where
  | null : Json
  | bool : Bool → Json
  | num : ℚ → Json
  | str : String → Json
  | arr : List Json → Json
  | obj : List (String × Json) → Json
deriving Repr

/-- Python truthiness (`bool(x)`) of a JSON value: `None`, `False`, `0`,
`""`, `[]` and `{}` are falsy. -/
def Json.truthy : Json → Bool
  | .null => false
  | .bool b => b
  | .num q => q != 0
  | .str s => s != ""
  | .arr xs => !xs.isEmpty
  | .obj fs => !fs.isEmpty

/-- Python `d.get(k, default)` on a JSON object (first binding wins, as in
a dict where keys are unique). -/
def Json.get (j : Json) (k : String) (dflt : Json) : Json :=
  match j with
  | .obj fs => (fs.lookup k).getD dflt
  | _ => dflt

/-- The retryable failure recorded in `last_error` by `_request`:
an HTTP 5xx (`ClientResponseError`) or a network-level timeout or
connection failure (`TimeoutError` / `ClientError`). -/
inductive RetryErr where
  | serverError : Nat → RetryErr
  | netError : RetryErr
deriving Repr, DecidableEq

/-- The `HomevoltApiError` exception hierarchy of `api.py` (every
constructor is a subclass of the base `HomevoltApiError`). -/
inductive ApiErr where
  | auth : ApiErr
  | rateLimit : ApiErr
  | apiError : Nat → ApiErr
  | connError : Option RetryErr → ApiErr
  | notLocalMode : ApiErr
  | commandError : String → ApiErr
deriving Repr, DecidableEq

/-- Outcome observed by one GET attempt: a 2xx response whose body parsed
as JSON, a bare (non-2xx) HTTP status, or a network-level failure
(timeout / connection error). -/
inductive AttemptOut where
  | success : Json → AttemptOut
  | httpStatus : Nat → AttemptOut
  | netError : AttemptOut
deriving Repr

/-- Classification of one attempt outcome by `_request`'s status-code
policy (lines 131-163 of `api.py`): 401 → auth error, 429 → rate-limit
error, ≥500 → retryable server error, other non-2xx → immediate generic
API error, network failure → retryable. -/
inductive StepClass where
  | done : Json → StepClass
  | fatal : ApiErr → StepClass
  | retryable : RetryErr → StepClass
deriving Repr

/-- Status-code policy of `_request` applied to one attempt outcome. -/
def classifyAttempt : AttemptOut → StepClass
  | .success v => .done v
  | .httpStatus n =>
    if n = 401 then .fatal .auth
    else if n = 429 then .fatal .rateLimit
    else if 500 ≤ n then .retryable (.serverError n)
    else .fatal (.apiError n)
  | .netError => .retryable .netError

/-- The retryable error recorded by an attempt outcome, if any
(`none` means the attempt returns or raises immediately). -/
def retryClass (a : AttemptOut) : Option RetryErr :=
  match classifyAttempt a with
  | .retryable e => some e
  | _ => none

/-- Retry configuration constant `RETRY_BASE_DELAY = 1.0`. -/
def RETRY_BASE_DELAY : ℚ := 1

/-- Retry configuration constant `RETRY_MAX_DELAY = 30.0`. -/
def RETRY_MAX_DELAY : ℚ := 30

/-- Retry configuration constant `RETRY_JITTER = 0.5`. -/
def RETRY_JITTER : ℚ := 1/2

/-- Retry configuration constant `MAX_RETRIES = 3`. -/
def MAX_RETRIES : Nat := 3

/-- Cache configuration constant `CACHE_EXPIRY = 600` seconds. -/
def CACHE_EXPIRY : ℚ := 600

/-- Backoff sleep before the attempt after attempt `attempt`:
`min(RETRY_BASE_DELAY * 2**attempt, RETRY_MAX_DELAY)` scaled by
`1 + uniform(0, RETRY_JITTER)`, the uniform draw being the oracle value
`jit attempt`. -/
def retryDelay (attempt : Nat) (jit : Nat → ℚ) : ℚ :=
  min (RETRY_BASE_DELAY * 2 ^ attempt) RETRY_MAX_DELAY * (1 + jit attempt)

/-- Result of one `_request` call: the returned JSON or raised error, the
backoff sleeps performed (in order), and the number of GET attempts made. -/
structure RunResult where
  result : Except ApiErr Json
  sleeps : List ℚ
  attempts : Nat
deriving Repr

/-- The retry loop of `_request` (lines 129-188 of `api.py`).  `fuel` is
the number of loop iterations remaining (`retries + 1 - attempt`),
`attempt` the current 0-based attempt index, `lastErr` the current
`last_error`.  When the loop exhausts its iterations it raises
`HomevoltConnectionError` wrapping `last_error`; a retryable failure with
iterations remaining sleeps `retryDelay` and continues; fatal
classifications raise immediately. -/
def requestLoop (out : Nat → AttemptOut) (jit : Nat → ℚ) :
    Nat → Nat → Option RetryErr → RunResult
  | 0, _, lastErr => ⟨.error (.connError lastErr), [], 0⟩
  | fuel + 1, attempt, _ =>
    match classifyAttempt (out attempt) with
    | .done v => ⟨.ok v, [], 1⟩
    | .fatal e => ⟨.error e, [], 1⟩
    | .retryable e =>
      let rest := requestLoop out jit fuel (attempt + 1) (some e)
      ⟨rest.result,
       (if fuel ≠ 0 then [retryDelay attempt jit] else []) ++ rest.sleeps,
       1 + rest.attempts⟩

/-- Model of `HomevoltApi._request endpoint retries`: run the retry loop
for `retries + 1` attempts starting at attempt 0 with no recorded error. -/
def runRequest (out : Nat → AttemptOut) (jit : Nat → ℚ) (retries : Nat) : RunResult :=
  requestLoop out jit (retries + 1) 0 none

/-- A cached API response with the monotonic timestamp at which it was
stored (`CacheEntry` dataclass of `api.py`). -/
structure CacheEntry where
  data : Json
  timestamp : ℚ
deriving Repr

/-- The per-endpoint cache map `self._cache` (a Python dict keyed by
endpoint path). -/
def CacheMap : Type := String → Option CacheEntry

/-- Model of `HomevoltApi._request_cached` (lines 190-213 of `api.py`):
run the live request; on success store the result in the cache at the
current monotonic time `now` and return it; auth and rate-limit errors
re-raise untouched; any other `HomevoltApiError` falls back to a cached
entry younger than `CACHE_EXPIRY`, else re-raises.  Returns the result
together with the (possibly updated) cache. -/
def requestCached (cache : CacheMap) (endpoint : String) (now : ℚ)
    (out : Nat → AttemptOut) (jit : Nat → ℚ) (retries : Nat) :
    Except ApiErr Json × CacheMap :=
  match (runRequest out jit retries).result with
  | .ok data =>
    (.ok data, fun k => if k = endpoint then some ⟨data, now⟩ else cache k)
  | .error e =>
    match e with
    | .auth => (.error e, cache)
    | .rateLimit => (.error e, cache)
    | _ =>
      match cache endpoint with
      | some cached =>
        if now - cached.timestamp < CACHE_EXPIRY then (.ok cached.data, cache)
        else (.error e, cache)
      | none => (.error e, cache)

/-! Text primitives.  Python's `str.strip`, `str.split("\n")`,
`str.startswith` and the substring test `in` are modelled by
structurally recursive functions over the character list of a string
(Lean's own `String.trim`/`String.splitOn` are not used because their
implementations do not reduce inside the kernel). -/

/-- Whitespace as stripped by Python's `str.strip()` (the ASCII cases
that occur in device responses). -/
def wsChar (c : Char) : Bool :=
  c = ' ' || c = '\t' || c = '\n' || c = '\r' || c = '\x0b' || c = '\x0c'

/-- Python `s.strip()`: drop leading and trailing whitespace. -/
def strip (s : String) : String :=
  ⟨((s.data.dropWhile wsChar).reverse.dropWhile wsChar).reverse⟩

/-- Split a character list at every newline (no collapsing of empty
segments, exactly like Python's `s.split("\n")`). -/
def splitLinesChars : List Char → List (List Char)
  | [] => [[]]
  | c :: cs =>
    let rest := splitLinesChars cs
    if c = '\n' then [] :: rest
    else
      match rest with
      | [] => [[c]]
      | l :: ls => (c :: l) :: ls

/-- Python `s.split("\n")`. -/
def splitLines (s : String) : List String :=
  (splitLinesChars s.data).map String.mk

/-- Whether `p` is a prefix of `s` as character lists. -/
def prefixChars : List Char → List Char → Bool
  | [], _ => true
  | _ :: _, [] => false
  | p :: ps, c :: cs => p = c && prefixChars ps cs

/-- Python `s.startswith(p)`. -/
def startsWith (s p : String) : Bool := prefixChars p.data s.data

/-- Whether `needle` occurs as a contiguous sublist of the second list. -/
def infixChars (needle : List Char) : List Char → Bool
  | [] => prefixChars needle []
  | c :: cs => prefixChars needle (c :: cs) || infixChars needle cs

/-- Python substring test `sub in s`. -/
def containsStr (s sub : String) : Bool := infixChars sub.data s.data

/-- The device's plain-text failure marker scanned for by
`send_console_command`. -/
def ERROR_MARKER : String := "returned non-zero error code"

/-- The loop of `send_console_command` over the lines of a non-JSON
response (lines 372-379 of `api.py`): stop at the first line containing
`ERROR_MARKER`, skip lines echoing the prompt (`esp32>` prefix), collect
every other line stripped. -/
def collectErrorLines : List String → List String
  | [] => []
  | line :: rest =>
    if containsStr line ERROR_MARKER then []
    else if startsWith line "esp32>" then collectErrorLines rest
    else strip line :: collectErrorLines rest

/-- The command-error message built by `send_console_command` from a
non-JSON body containing `ERROR_MARKER`:
`" ".join(error_lines).strip() or "Command failed"` over the lines of the
stripped body. -/
def consoleErrorMsg (text : String) : String :=
  let msg := strip (String.intercalate " " (collectErrorLines (splitLines (strip text))))
  if msg = "" then "Command failed" else msg

/-- Model of the plain-text branch of `send_console_command` (lines
367-382 of `api.py`), reached when a 2xx console response body fails to
parse as JSON: raise `HomevoltCommandError` when the body contains
`ERROR_MARKER`, otherwise synthesize `{command, output, exit_code: 0}`. -/
def parsePlainConsole (command text : String) : Except ApiErr Json :=
  if containsStr text ERROR_MARKER then
    .error (.commandError (consoleErrorMsg text))
  else
    .ok (.obj [("command", .str command), ("output", .str (strip text)),
               ("exit_code", .num 0)])

/-- The schedule-state gate shared by every mode setter:
`schedule.get("local_mode", False)` under Python truthiness. -/
def localMode (schedule : Json) : Bool :=
  (schedule.get "local_mode" (.bool false)).truthy

/-- Optional command-line flag appended by the setters' pattern
`if x is not None: cmd += f" {flag} {x}"`. -/
def optFlag (pre : String) : Option Int → String
  | none => ""
  | some v => pre ++ toString v

/-! Mode setters.  Each setter first performs the cached schedule GET
(whose outcome is the `sched` argument: the device either returned a
schedule object or the read raised), then checks `local_mode`, then — only
if the gate passes — sends exactly one console command.  The model
returns `.ok cmd` for the command sent on success of the gate, and
`.error e` when the setter raises before sending anything; by
construction no console POST occurs on the error path. -/

/-- Model of `HomevoltApi.set_idle` (lines 408-431 of `api.py`). -/
def set_idle (sched : Except ApiErr Json) (offline : Bool) : Except ApiErr String :=
  match sched with
  | .error e => .error e
  | .ok schedule =>
    if !localMode schedule then .error .notLocalMode
    else .ok ("sched_set 0" ++ (if offline then " --offline" else ""))

/-- Model of `HomevoltApi.set_charge` (lines 433-467 of `api.py`). -/
def set_charge (sched : Except ApiErr Json)
    (setpoint min_soc max_soc : Option Int) : Except ApiErr String :=
  match sched with
  | .error e => .error e
  | .ok schedule =>
    if !localMode schedule then .error .notLocalMode
    else .ok ("sched_set 1" ++ optFlag " -s " setpoint ++
              optFlag " --min " min_soc ++ optFlag " --max " max_soc)

/-- Model of `HomevoltApi.set_discharge` (lines 469-503 of `api.py`). -/
def set_discharge (sched : Except ApiErr Json)
    (setpoint min_soc max_soc : Option Int) : Except ApiErr String :=
  match sched with
  | .error e => .error e
  | .ok schedule =>
    if !localMode schedule then .error .notLocalMode
    else .ok ("sched_set 2" ++ optFlag " -s " setpoint ++
              optFlag " --min " min_soc ++ optFlag " --max " max_soc)

/-- Model of `HomevoltApi.set_grid_charge` (lines 505-539 of `api.py`). -/
def set_grid_charge (sched : Except ApiErr Json)
    (setpoint min_soc max_soc : Option Int) : Except ApiErr String :=
  match sched with
  | .error e => .error e
  | .ok schedule =>
    if !localMode schedule then .error .notLocalMode
    else .ok ("sched_set 3" ++ optFlag " -s " setpoint ++
              optFlag " --min " min_soc ++ optFlag " --max " max_soc)

/-- Model of `HomevoltApi.set_grid_discharge` (lines 541-575 of `api.py`). -/
def set_grid_discharge (sched : Except ApiErr Json)
    (setpoint min_soc max_soc : Option Int) : Except ApiErr String :=
  match sched with
  | .error e => .error e
  | .ok schedule =>
    if !localMode schedule then .error .notLocalMode
    else .ok ("sched_set 4" ++ optFlag " -s " setpoint ++
              optFlag " --min " min_soc ++ optFlag " --max " max_soc)

/-- Model of `HomevoltApi.set_grid_charge_discharge` (lines 577-619 of
`api.py`).  Note the implementation gives `setpoint` the default `None`
and silently omits `-s` when it is missing, exactly like its siblings,
although its own docstring documents `setpoint` as required. -/
def set_grid_charge_discharge (sched : Except ApiErr Json)
    (setpoint charge_setpoint discharge_setpoint min_soc max_soc : Option Int) :
    Except ApiErr String :=
  match sched with
  | .error e => .error e
  | .ok schedule =>
    if !localMode schedule then .error .notLocalMode
    else .ok ("sched_set 5" ++ optFlag " -s " setpoint ++
              optFlag " -c " charge_setpoint ++ optFlag " -d " discharge_setpoint ++
              optFlag " --min " min_soc ++ optFlag " --max " max_soc)

/-- Model of `HomevoltApi.set_solar_charge` (lines 621-655 of `api.py`). -/
def set_solar_charge (sched : Except ApiErr Json)
    (setpoint min_soc max_soc : Option Int) : Except ApiErr String :=
  match sched with
  | .error e => .error e
  | .ok schedule =>
    if !localMode schedule then .error .notLocalMode
    else .ok ("sched_set 7" ++ optFlag " -s " setpoint ++
              optFlag " --min " min_soc ++ optFlag " --max " max_soc)

/-- Model of `HomevoltApi.set_solar_charge_discharge` (lines 657-699 of
`api.py`). -/
def set_solar_charge_discharge (sched : Except ApiErr Json)
    (setpoint charge_setpoint discharge_setpoint min_soc max_soc : Option Int) :
    Except ApiErr String :=
  match sched with
  | .error e => .error e
  | .ok schedule =>
    if !localMode schedule then .error .notLocalMode
    else .ok ("sched_set 8" ++ optFlag " -s " setpoint ++
              optFlag " -c " charge_setpoint ++ optFlag " -d " discharge_setpoint ++
              optFlag " --min " min_soc ++ optFlag " --max " max_soc)

/-- Model of `HomevoltApi.set_full_solar_export` (lines 701-735 of
`api.py`). -/
def set_full_solar_export (sched : Except ApiErr Json)
    (setpoint min_soc max_soc : Option Int) : Except ApiErr String :=
  match sched with
  | .error e => .error e
  | .ok schedule =>
    if !localMode schedule then .error .notLocalMode
    else .ok ("sched_set 9" ++ optFlag " -s " setpoint ++
              optFlag " --min " min_soc ++ optFlag " --max " max_soc)

/-- A schedule entry dict as consumed by `_build_schedule_command`; the
`type` field is required, every other field optional (`none` models
key-absent). -/
structure ScheduleEntry where
  type : Int
  from_time : Option String := none
  to_time : Option String := none
  min_soc : Option Int := none
  max_soc : Option Int := none
  setpoint : Option Int := none
  max_charge : Option Int := none
  max_discharge : Option Int := none
  import_limit : Option Int := none
  export_limit : Option Int := none
deriving Repr

/-- Model of `HomevoltApi._build_schedule_command` (lines 737-777 of
`api.py`): sequentially append one part per present field, then join the
parts with single spaces. -/
def _build_schedule_command (entry : ScheduleEntry) : String :=
  let parts := [toString entry.type]
  let parts := match entry.from_time with
    | some v => parts ++ ["--from " ++ v]
    | none => parts
  let parts := match entry.to_time with
    | some v => parts ++ ["--to " ++ v]
    | none => parts
  let parts := match entry.min_soc with
    | some v => parts ++ ["--min " ++ toString v]
    | none => parts
  let parts := match entry.max_soc with
    | some v => parts ++ ["--max " ++ toString v]
    | none => parts
  let parts := match entry.setpoint with
    | some v => parts ++ ["-s " ++ toString v]
    | none => parts
  let parts := match entry.max_charge with
    | some v => parts ++ ["-c " ++ toString v]
    | none => parts
  let parts := match entry.max_discharge with
    | some v => parts ++ ["-d " ++ toString v]
    | none => parts
  let parts := match entry.import_limit with
    | some v => parts ++ ["-l " ++ toString v]
    | none => parts
  let parts := match entry.export_limit with
    | some v => parts ++ ["-x " ++ toString v]
    | none => parts
  String.intercalate " " parts

/-- A network operation observable at the transport: the cached schedule
GET, or a console POST carrying a command string. -/
inductive NetOp where
  | getSchedule : NetOp
  | consolePost : String → NetOp
deriving Repr, DecidableEq

/-- Error channel of `set_schedule`: the `ValueError` raised on an empty
entries list, or a propagated `HomevoltApiError`. -/
inductive SchedErr where
  | valueError : SchedErr
  | api : ApiErr → SchedErr
deriving Repr, DecidableEq

/-- Sequentially send console commands, collecting the responses; a
failing command propagates its error and stops the loop (its own POST
still occurred).  Also returns the commands actually POSTed, in order. -/
def runConsoleSeq (console : String → Except ApiErr Json) :
    List String → Except ApiErr (List Json) × List String
  | [] => (.ok [], [])
  | c :: cs =>
    match console c with
    | .error e => (.error e, [c])
    | .ok v =>
      let rest := runConsoleSeq console cs
      (match rest.1 with
       | .ok vs => .ok (v :: vs)
       | .error e => .error e,
       c :: rest.2)

/-- The command strings built by the loop of `set_schedule`:
`sched_set` prefix for index 0, `sched_add` for every later index. -/
def schedCmds (entries : List ScheduleEntry) : List String :=
  entries.enum.map
    (fun p => (if p.1 = 0 then "sched_set" else "sched_add") ++ " " ++
              _build_schedule_command p.2)

/-- Model of `HomevoltApi.set_schedule` (lines 779-825 of `api.py`):
fail fast on an empty entries list, then perform the cached schedule GET
(outcome `sched`), gate on `local_mode`, then send the prefixed commands
in order.  The second component is the list of network operations
performed, in order. -/
def set_schedule (sched : Except ApiErr Json)
    (console : String → Except ApiErr Json) (entries : List ScheduleEntry) :
    Except SchedErr (List Json) × List NetOp :=
  match entries with
  | [] => (.error .valueError, [])
  | _ :: _ =>
    match sched with
    | .error e => (.error (.api e), [.getSchedule])
    | .ok schedule =>
      if !localMode schedule then (.error (.api .notLocalMode), [.getSchedule])
      else
        let r := runConsoleSeq console (schedCmds entries)
        (match r.1 with
         | .ok vs => .ok vs
         | .error e => .error (.api e),
         .getSchedule :: r.2.map NetOp.consolePost)

/-- The six logical endpoint keys fetched by `get_all_data`, in order. -/
def allDataKeys : List String :=
  ["status", "ems", "mains", "params", "schedule", "ota_manifest"]

/-- The loop of `get_all_data`: one cached fetch per key, substituting an
empty object for the value whenever the fetch raises a
`HomevoltApiError` (every `ApiErr` value models a subclass of
`HomevoltApiError`, so the `except HomevoltApiError` clause catches all
of them, including auth and rate-limit errors). -/
def getAllDataLoop (fetch : String → Except ApiErr Json) :
    List String → List (String × Json)
  | [] => []
  | k :: ks =>
    (k, match fetch k with
        | .ok v => v
        | .error _ => .obj []) :: getAllDataLoop fetch ks

/-- Model of `HomevoltApi.get_all_data` (lines 259-280 of `api.py`).
The per-endpoint cached fetch is abstracted as the oracle `fetch`. -/
def get_all_data (fetch : String → Except ApiErr Json) :
    Except ApiErr (List (String × Json)) :=
  .ok (getAllDataLoop fetch allDataKeys)

/-! Specification-side definitions, written from the wording of the
claims (not from the code), for the refinement comparisons. -/

/-- Claim C5's command-error message, transcribed literally from the
claim's words: all lines preceding the first line containing the marker,
excluding lines starting with `esp32>`, each line stripped, joined by
single spaces; the literal `"Command failed"` if nothing remained. -/
def specConsoleMsgClaim (text : String) : String :=
  let kept := (((splitLines text).takeWhile
      (fun l => !containsStr l ERROR_MARKER)).filter
      (fun l => !startsWith l "esp32>")).map strip
  let msg := String.intercalate " " kept
  if msg = "" then "Command failed" else msg

/-- Claim C5 as amended: the same transformation, but the body is
stripped of surrounding whitespace before splitting into lines and the
joined result is stripped of surrounding whitespace (with
`"Command failed"` when nothing remains after that stripping). -/
def specConsoleMsgAmended (text : String) : String :=
  let kept := (((splitLines (strip text)).takeWhile
      (fun l => !containsStr l ERROR_MARKER)).filter
      (fun l => !startsWith l "esp32>")).map strip
  let msg := strip (String.intercalate " " kept)
  if msg = "" then "Command failed" else msg

/-- One optional string-valued flag, per claim C7's wording: present
fields contribute `flag value`, absent fields contribute nothing. -/
def specFlagStr (flag : String) : Option String → List String
  | none => []
  | some v => [flag ++ " " ++ v]

/-- One optional integer-valued flag, per claim C7's wording. -/
def specFlagInt (flag : String) : Option Int → List String
  | none => []
  | some v => [flag ++ " " ++ toString v]

/-- Claim C7's description of the built command: the type value followed
by exactly the flags whose fields are present, in the fixed order
`--from --to --min --max -s -c -d -l -x`, joined by single spaces. -/
def specScheduleCommand (e : ScheduleEntry) : String :=
  String.intercalate " "
    (toString e.type ::
     (specFlagStr "--from" e.from_time ++ specFlagStr "--to" e.to_time ++
      specFlagInt "--min" e.min_soc ++ specFlagInt "--max" e.max_soc ++
      specFlagInt "-s" e.setpoint ++ specFlagInt "-c" e.max_charge ++
      specFlagInt "-d" e.max_discharge ++ specFlagInt "-l" e.import_limit ++
      specFlagInt "-x" e.export_limit))

/-- Claim C8's description of the command sequence: the first entry's
command prefixed with `sched_set`, every subsequent one with
`sched_add`, in list order. -/
def specSchedCmds : List ScheduleEntry → List String
  | [] => []
  | e :: es =>
    ("sched_set " ++ _build_schedule_command e) ::
      es.map (fun x => "sched_add " ++ _build_schedule_command x)

/-- A concrete per-endpoint fetch oracle where the EMS fetch fails with
the authentication error and every other endpoint succeeds. -/
def authFailFetch : String → Except ApiErr Json :=
  fun k => if k = "ems" then .error .auth else .ok (.obj [("d", .num 1)])

/-- A console body with a leading blank line and a whitespace-only line
before the marker line. -/
def c5Body : String :=
  "\nBad\n \nCommand 'cmd' returned non-zero error code: 0x2 (ERROR)"

end Homevolt

namespace Homevolt

/-- Claim C1: a 401 (resp. 429) on the first attempt raises the auth
(resp. rate-limit) error immediately: one attempt, no sleeps, and the
cached wrapper re-raises it leaving the cache untouched, whatever the
cache holds. -/
theorem c1_auth_rate_limit_immediate (out : Nat → AttemptOut) (jit : Nat → ℚ)
    (retries : Nat) (cache : CacheMap) (endpoint : String) (now : ℚ) :
    (out 0 = .httpStatus 401 →
      runRequest out jit retries = ⟨.error .auth, [], 1⟩ ∧
      requestCached cache endpoint now out jit retries = (.error .auth, cache)) ∧
    (out 0 = .httpStatus 429 →
      runRequest out jit retries = ⟨.error .rateLimit, [], 1⟩ ∧
      requestCached cache endpoint now out jit retries = (.error .rateLimit, cache)) := by
  constructor <;> intro h <;>
    refine ⟨?_, ?_⟩ <;>
      simp [runRequest, requestLoop, requestCached, h, classifyAttempt]

/-- Witness for C1 at a concrete run: first attempt yields 401 with a
valid cache entry present for the endpoint; the auth error propagates
with no sleep and the cache is returned unchanged. -/
theorem c1_auth_rate_limit_immediate_witness :
    runRequest (fun _ => .httpStatus 401) (fun _ => (0:ℚ)) 3 =
      ⟨.error .auth, [], 1⟩ ∧
    requestCached (fun _ => some ⟨.obj [], 0⟩) "/status.json" 1
      (fun _ => .httpStatus 401) (fun _ => (0:ℚ)) 3 =
      (.error .auth, fun _ => some ⟨.obj [], 0⟩) := by
  have h := c1_auth_rate_limit_immediate (fun _ => .httpStatus 401) (fun _ => (0:ℚ))
    3 (fun _ => some ⟨.obj [], 0⟩) "/status.json" 1
  exact h.1 rfl

end Homevolt

namespace Homevolt

lemma classify_of_retryClass {a : AttemptOut} {e : RetryErr}
    (h : retryClass a = some e) : classifyAttempt a = .retryable e := by
  unfold retryClass at h
  cases hc : classifyAttempt a <;> rw [hc] at h <;> simp_all

lemma requestLoop_all_retryable (out : Nat → AttemptOut) (jit : Nat → ℚ) :
    ∀ (fuel attempt : Nat) (le : Option RetryErr),
      (∀ k, k ≤ fuel → (retryClass (out (attempt + k))).isSome) →
      requestLoop out jit (fuel + 1) attempt le =
        ⟨.error (.connError (retryClass (out (attempt + fuel)))),
         (List.range fuel).map (fun k => retryDelay (attempt + k) jit),
         fuel + 1⟩ := by
  intro fuel
  induction fuel with
  | zero =>
    intro attempt le h
    obtain ⟨e, he⟩ := Option.isSome_iff_exists.mp (h 0 (le_refl 0))
    rw [Nat.add_zero] at he
    have hc := classify_of_retryClass he
    simp [requestLoop, hc, he]
  | succ f ih =>
    intro attempt le h
    obtain ⟨e, he⟩ := Option.isSome_iff_exists.mp (h 0 (Nat.zero_le _))
    rw [Nat.add_zero] at he
    have hc := classify_of_retryClass he
    have hrec := ih (attempt + 1) (some e) (fun k hk => by
      have hkk := h (k + 1) (by omega)
      have harr : attempt + (k + 1) = attempt + 1 + k := by omega
      rwa [harr] at hkk)
    have hstep : requestLoop out jit (f + 1 + 1) attempt le =
        ⟨(requestLoop out jit (f + 1) (attempt + 1) (some e)).result,
         (if f + 1 ≠ 0 then [retryDelay attempt jit] else []) ++
           (requestLoop out jit (f + 1) (attempt + 1) (some e)).sleeps,
         1 + (requestLoop out jit (f + 1) (attempt + 1) (some e)).attempts⟩ := by
      rw [requestLoop, hc]
    rw [hstep, hrec]
    simp only [RunResult.mk.injEq]
    refine ⟨?_, ?_, ?_⟩
    · rw [show attempt + 1 + f = attempt + (f + 1) from by omega]
    · rw [List.range_succ_eq_map, List.map_cons, List.map_map]
      simp only [Nat.add_zero, Nat.succ_ne_zero, ne_eq, not_false_eq_true,
        if_true, List.singleton_append]
      congr 1
      apply List.map_congr_left
      intro k hk
      simp only [Function.comp_apply]
      rw [show attempt + Nat.succ k = attempt + 1 + k from by omega]
    · omega

end Homevolt

namespace Homevolt

/-- Claim C2: when every attempt up to the budget fails retryably,
`_request` makes exactly `retries + 1` attempts, sleeps
`min(1.0 * 2^n, 30.0) * (1 + u)` with `u = jit n ∈ [0, 0.5]` before
attempt `n+1`, and finally raises a connection error wrapping the last
recorded failure. -/
theorem c2_retry_exhaustion (retries : Nat) (out : Nat → AttemptOut) (jit : Nat → ℚ)
    (hretry : ∀ n, n ≤ retries → (retryClass (out n)).isSome)
    (hjit : ∀ n, 0 ≤ jit n ∧ jit n ≤ RETRY_JITTER) :
    (runRequest out jit retries).attempts = retries + 1 ∧
    (runRequest out jit retries).sleeps =
      (List.range retries).map (fun n => min ((1:ℚ) * 2 ^ n) 30 * (1 + jit n)) ∧
    (∀ n, n < retries → ∃ u, 0 ≤ u ∧ u ≤ RETRY_JITTER ∧
      (runRequest out jit retries).sleeps.getD n 0 =
        min ((1:ℚ) * 2 ^ n) 30 * (1 + u)) ∧
    ∃ elast, retryClass (out retries) = some elast ∧
      (runRequest out jit retries).result = .error (.connError (some elast)) := by
  have hall := requestLoop_all_retryable out jit retries 0 none
    (fun k hk => by simpa using hretry k hk)
  simp only [Nat.zero_add] at hall
  rw [runRequest, hall]
  refine ⟨rfl, rfl, ?_, ?_⟩
  · intro n hn
    refine ⟨jit n, (hjit n).1, (hjit n).2, ?_⟩
    simp [List.getD, List.getElem?_map, List.getElem?_range, hn, retryDelay,
      RETRY_BASE_DELAY, RETRY_MAX_DELAY]
  · obtain ⟨e, he⟩ := Option.isSome_iff_exists.mp (hretry retries (le_refl _))
    exact ⟨e, he, by rw [he]⟩

/-- Witness for C2 at a concrete run: budget 2, every attempt a network
failure, zero jitter; three attempts, sleeps 1s then 2s, and a
connection error wrapping the network failure. -/
theorem c2_retry_exhaustion_witness :
    (runRequest (fun _ => AttemptOut.netError) (fun _ => (0:ℚ)) 2).attempts = 2 + 1 ∧
    (runRequest (fun _ => AttemptOut.netError) (fun _ => (0:ℚ)) 2).sleeps =
      (List.range 2).map (fun n => min ((1:ℚ) * 2 ^ n) 30 * (1 + (0:ℚ))) ∧
    (runRequest (fun _ => AttemptOut.netError) (fun _ => (0:ℚ)) 2).result =
      .error (.connError (some .netError)) := by
  have h := c2_retry_exhaustion 2 (fun _ => .netError) (fun _ => 0)
    (fun n _ => by simp [retryClass, classifyAttempt])
    (fun n => ⟨le_refl 0, le_of_lt one_half_pos⟩)
  refine ⟨h.1, by rw [h.2.1], ?_⟩
  obtain ⟨e, he, hr⟩ := h.2.2.2
  simp only [retryClass, classifyAttempt, Option.some.injEq] at he
  subst he
  exact hr

end Homevolt

namespace Homevolt

lemma requestCached_error_fallback (cache : CacheMap) (E : String) (now : ℚ)
    (out : Nat → AttemptOut) (jit : Nat → ℚ) (r : Nat) (e : ApiErr)
    (h : (runRequest out jit r).result = .error e)
    (hea : e ≠ .auth) (her : e ≠ .rateLimit) :
    requestCached cache E now out jit r =
      (match cache E with
       | some cached =>
         if now - cached.timestamp < CACHE_EXPIRY then (.ok cached.data, cache)
         else (.error e, cache)
       | none => (.error e, cache)) := by
  unfold requestCached
  rw [h]
  cases e with
  | auth => exact absurd rfl hea
  | rateLimit => exact absurd rfl her
  | apiError n => rfl
  | connError o => rfl
  | notLocalMode => rfl
  | commandError m => rfl

/-- Claim C3: after a successful GET for endpoint `E` stores a cache
entry at monotonic time `t`, a cached request at time `tp` whose live
request fails with a non-auth, non-rate-limit error returns the stored
JSON when `tp - t < 600` and propagates the live error when
`600 ≤ tp - t`; with no entry for `E`, the live error propagates. -/
theorem c3_cache_round_trip (cache : CacheMap) (E : String) (t tp : ℚ)
    (out1 out2 : Nat → AttemptOut) (jit1 jit2 : Nat → ℚ) (r1 r2 : Nat)
    (d : Json) (e : ApiErr)
    (h1 : (runRequest out1 jit1 r1).result = .ok d)
    (h2 : (runRequest out2 jit2 r2).result = .error e)
    (hea : e ≠ .auth) (her : e ≠ .rateLimit) :
    (requestCached cache E t out1 jit1 r1).1 = .ok d ∧
    (requestCached cache E t out1 jit1 r1).2 E = some ⟨d, t⟩ ∧
    (tp - t < CACHE_EXPIRY →
      requestCached (requestCached cache E t out1 jit1 r1).2 E tp out2 jit2 r2 =
        (.ok d, (requestCached cache E t out1 jit1 r1).2)) ∧
    (CACHE_EXPIRY ≤ tp - t →
      requestCached (requestCached cache E t out1 jit1 r1).2 E tp out2 jit2 r2 =
        (.error e, (requestCached cache E t out1 jit1 r1).2)) ∧
    (∀ c0 : CacheMap, c0 E = none →
      requestCached c0 E tp out2 jit2 r2 = (.error e, c0)) := by
  have hc1 : requestCached cache E t out1 jit1 r1 =
      (.ok d, fun k => if k = E then some ⟨d, t⟩ else cache k) := by
    unfold requestCached; rw [h1]
  refine ⟨by rw [hc1], by rw [hc1]; simp, ?_, ?_, ?_⟩
  · intro hlt
    rw [hc1, requestCached_error_fallback _ _ _ _ _ _ e h2 hea her]
    simp [hlt]
  · intro hge
    rw [hc1, requestCached_error_fallback _ _ _ _ _ _ e h2 hea her]
    simp [not_lt.mpr hge]
  · intro c0 hc0
    rw [requestCached_error_fallback _ _ _ _ _ _ e h2 hea her, hc0]

/-- Witness for C3 at a concrete run: store at time 0, fail with a 404
at time 1; the stored object is returned and the cache kept. -/
theorem c3_cache_round_trip_witness :
    (requestCached (fun _ => none) "/ems.json" 0
      (fun _ => .success (Json.obj [])) (fun _ => 0) 3).1 = .ok (Json.obj []) ∧
    requestCached
      (requestCached (fun _ => none) "/ems.json" 0
        (fun _ => .success (Json.obj [])) (fun _ => 0) 3).2
      "/ems.json" 1 (fun _ => .httpStatus 404) (fun _ => 0) 3 =
      (.ok (Json.obj []),
       (requestCached (fun _ => none) "/ems.json" 0
         (fun _ => .success (Json.obj [])) (fun _ => 0) 3).2) := by
  have h := c3_cache_round_trip (fun _ => none) "/ems.json" 0 1
    (fun _ => .success (Json.obj [])) (fun _ => .httpStatus 404)
    (fun _ => 0) (fun _ => 0) 3 3 (Json.obj []) (.apiError 404)
    rfl rfl (by decide) (by decide)
  exact ⟨h.1, h.2.2.1 (by norm_num [CACHE_EXPIRY])⟩

/-- Claim C10: `_request_cached` leaves the cache map entirely unchanged
on every failure path (including the stale-fallback path), and no
request ever touches entries for endpoints other than the one
requested. -/
theorem c10_cache_frame (cache : CacheMap) (endpoint : String) (now : ℚ)
    (out : Nat → AttemptOut) (jit : Nat → ℚ) (retries : Nat) :
    (∀ e, (runRequest out jit retries).result = .error e →
      (requestCached cache endpoint now out jit retries).2 = cache) ∧
    (∀ k, k ≠ endpoint →
      (requestCached cache endpoint now out jit retries).2 k = cache k) := by
  cases hr : (runRequest out jit retries).result with
  | ok v =>
    constructor
    · intro e he
      exact absurd he (by simp)
    · intro k hk
      unfold requestCached
      rw [hr]
      simp [hk]
  | error e =>
    have hsnd : (requestCached cache endpoint now out jit retries).2 = cache := by
      unfold requestCached
      rw [hr]
      cases e <;> try rfl
      all_goals
        cases hce : cache endpoint with
        | none => rfl
        | some c =>
          simp only []
          split <;> rfl
    exact ⟨fun _ _ => hsnd, fun k _ => by rw [hsnd]⟩

/-- Witness for C10 at concrete runs: a 404 leaves a nonempty cache
unchanged, and a successful GET for one endpoint leaves a different
endpoint entry as it was. -/
theorem c10_cache_frame_witness :
    (requestCached (fun _ => some ⟨.obj [], 0⟩) "/ems.json" 1
      (fun _ => .httpStatus 404) (fun _ => 0) 3).2 =
      (fun _ => some ⟨Json.obj [], 0⟩) ∧
    (requestCached (fun _ => none) "/ems.json" 1
      (fun _ => .success (Json.obj [])) (fun _ => 0) 3).2 "/status.json" = none := by
  constructor
  · exact (c10_cache_frame (fun _ => some ⟨.obj [], 0⟩) "/ems.json" 1
      (fun _ => .httpStatus 404) (fun _ => 0) 3).1 (.apiError 404) rfl
  · exact (c10_cache_frame (fun _ => none) "/ems.json" 1
      (fun _ => .success (Json.obj [])) (fun _ => 0) 3).2 "/status.json" (by decide)

end Homevolt

namespace Homevolt

lemma getAllDataLoop_lookup (fetch : String → Except ApiErr Json) :
    ∀ (ks : List String) (k : String), k ∈ ks →
      (getAllDataLoop fetch ks).lookup k =
        some (match fetch k with | .ok v => v | .error _ => Json.obj []) := by
  intro ks
  induction ks with
  | nil => intro k hk; cases hk
  | cons k0 rest ih =>
    intro k hk
    by_cases h : k = k0
    · subst h
      simp [getAllDataLoop, List.lookup]
    · have hmem : k ∈ rest := by
        rcases List.mem_cons.mp hk with h1 | h1
        · exact absurd h1 h
        · exact h1
      have hbeq : (k == k0) = false := beq_eq_false_iff_ne.mpr h
      simp [getAllDataLoop, List.lookup, hbeq, ih k hmem]

/-- Counterexample to claim C4: with the EMS fetch raising the
authentication error, `get_all_data` does not propagate it — it returns
successfully and substitutes the empty object for that endpoint
(`except HomevoltApiError` catches the `HomevoltAuthError` subclass). -/
theorem c4_counterexample :
    authFailFetch "ems" = .error .auth ∧
    (getAllDataLoop authFailFetch allDataKeys).lookup "ems" =
      some (Json.obj []) ∧
    (get_all_data authFailFetch).isOk = true := ⟨rfl, rfl, rfl⟩

/-- Claim C4 as amended: `get_all_data` never propagates any
`HomevoltApiError` — auth and rate-limit errors included; every failing
endpoint is substituted with the empty object and every succeeding
endpoint keeps its value. -/
theorem c4_all_errors_swallowed (fetch : String → Except ApiErr Json) :
    (get_all_data fetch).isOk = true ∧
    (∀ k, k ∈ allDataKeys → ∀ e, fetch k = .error e →
      (getAllDataLoop fetch allDataKeys).lookup k = some (Json.obj [])) ∧
    (∀ k, k ∈ allDataKeys → ∀ v, fetch k = .ok v →
      (getAllDataLoop fetch allDataKeys).lookup k = some v) := by
  refine ⟨rfl, ?_, ?_⟩
  · intro k hk e he
    rw [getAllDataLoop_lookup fetch allDataKeys k hk, he]
  · intro k hk v hv
    rw [getAllDataLoop_lookup fetch allDataKeys k hk, hv]

/-- Witness for the amended C4 at the concrete oracle: the auth-failing
EMS endpoint is substituted with the empty object. -/
theorem c4_all_errors_swallowed_witness :
    authFailFetch "ems" = .error .auth ∧
    (getAllDataLoop authFailFetch allDataKeys).lookup "status" =
      some (Json.obj [("d", .num 1)]) := by
  refine ⟨rfl, ?_⟩
  exact (c4_all_errors_swallowed authFailFetch).2.2 "status" (by decide)
    (Json.obj [("d", .num 1)]) rfl

lemma collectErrorLines_eq (l : List String) :
    collectErrorLines l =
      ((l.takeWhile (fun s => !containsStr s ERROR_MARKER)).filter
        (fun s => !startsWith s "esp32>")).map strip := by
  induction l with
  | nil => rfl
  | cons x xs ih =>
    cases h1 : containsStr x ERROR_MARKER with
    | true => simp [collectErrorLines, List.takeWhile, h1]
    | false =>
      cases h2 : startsWith x "esp32>" with
      | true => simp [collectErrorLines, List.takeWhile, List.filter, h1, h2, ih]
      | false => simp [collectErrorLines, List.takeWhile, List.filter, h1, h2, ih]

lemma consoleErrorMsg_eq_amended (text : String) :
    consoleErrorMsg text = specConsoleMsgAmended text := by
  unfold consoleErrorMsg specConsoleMsgAmended
  rw [collectErrorLines_eq]

/-- Claim C5 as amended: on a non-JSON 2xx console body containing the
error marker, `send_console_command` raises a command error whose
message is the lines preceding the first marker line of the stripped
body, prompt-echo lines dropped, each line stripped, joined by single
spaces with the joined result stripped (`"Command failed"` when nothing
remains); without the marker it synthesizes
`{command, output: stripped body, exit_code: 0}`. -/
theorem c5_console_plain_text (command text : String) :
    (containsStr text ERROR_MARKER = true →
      parsePlainConsole command text =
        .error (.commandError (specConsoleMsgAmended text))) ∧
    (containsStr text ERROR_MARKER = false →
      parsePlainConsole command text =
        .ok (.obj [("command", .str command), ("output", .str (strip text)),
                   ("exit_code", .num 0)])) := by
  constructor <;> intro h <;>
    simp [parsePlainConsole, h, consoleErrorMsg_eq_amended]

/-- Witness for C5 on the spec's example body: the message is exactly
`"Bad thing"`. -/
theorem c5_console_plain_text_witness :
    containsStr "esp32> cmd\nBad thing\nCommand 'cmd' returned non-zero error code: 0x2 (ERROR)" ERROR_MARKER = true ∧
    parsePlainConsole "cmd" "esp32> cmd\nBad thing\nCommand 'cmd' returned non-zero error code: 0x2 (ERROR)" =
      .error (.commandError "Bad thing") := by
  refine ⟨rfl, ?_⟩
  rw [(c5_console_plain_text "cmd"
    "esp32> cmd\nBad thing\nCommand 'cmd' returned non-zero error code: 0x2 (ERROR)").1 rfl]
  rfl

/-- Counterexample to claim C5 as stated: on `c5Body` the code's message
is `"Bad"`, while the claim's literal transformation (no stripping of
the body or of the joined result) yields `" Bad "`. -/
theorem c5_counterexample :
    containsStr c5Body ERROR_MARKER = true ∧
    parsePlainConsole "cmd" c5Body = .error (.commandError "Bad") ∧
    specConsoleMsgClaim c5Body = " Bad " ∧
    (" Bad " : String) ≠ "Bad" := ⟨rfl, rfl, rfl, by decide⟩

end Homevolt

namespace Homevolt

/-- Claim C6: every mode setter, and `set_schedule` on a non-empty
entries list, reads the schedule first and — when the returned object's
`local_mode` flag is falsy or absent — raises the not-local-mode error
without issuing any console command (for the setters the error result
means no command string was produced; for `set_schedule` the operation
trace is exactly the schedule GET, with no console POST). -/
theorem c6_local_mode_gate (s : Json) (hs : localMode s = false)
    (off : Bool) (sp csp dsp mn mx : Option Int)
    (console : String → Except ApiErr Json)
    (e0 : ScheduleEntry) (es : List ScheduleEntry) :
    set_idle (.ok s) off = .error .notLocalMode ∧
    set_charge (.ok s) sp mn mx = .error .notLocalMode ∧
    set_discharge (.ok s) sp mn mx = .error .notLocalMode ∧
    set_grid_charge (.ok s) sp mn mx = .error .notLocalMode ∧
    set_grid_discharge (.ok s) sp mn mx = .error .notLocalMode ∧
    set_grid_charge_discharge (.ok s) sp csp dsp mn mx = .error .notLocalMode ∧
    set_solar_charge (.ok s) sp mn mx = .error .notLocalMode ∧
    set_solar_charge_discharge (.ok s) sp csp dsp mn mx = .error .notLocalMode ∧
    set_full_solar_export (.ok s) sp mn mx = .error .notLocalMode ∧
    set_schedule (.ok s) console (e0 :: es) =
      (.error (.api .notLocalMode), [.getSchedule]) := by
  simp [set_idle, set_charge, set_discharge, set_grid_charge, set_grid_discharge,
    set_grid_charge_discharge, set_solar_charge, set_solar_charge_discharge,
    set_full_solar_export, set_schedule, hs]

/-- Witness for C6 at a schedule object with no `local_mode` key. -/
theorem c6_local_mode_gate_witness :
    localMode (Json.obj []) = false ∧
    set_idle (.ok (Json.obj [])) false = .error .notLocalMode ∧
    set_schedule (.ok (Json.obj [])) (fun _ => .ok .null) [{ type := 1 }] =
      (.error (.api .notLocalMode), [.getSchedule]) := by
  have h := c6_local_mode_gate (Json.obj []) rfl false none none none none none
    (fun _ => .ok .null) { type := 1 } []
  exact ⟨rfl, h.1, h.2.2.2.2.2.2.2.2.2⟩

set_option maxHeartbeats 4000000 in
/-- Claim C7: `_build_schedule_command` emits the type value followed by
exactly the flags whose fields are present, in the fixed order
`--from --to --min --max -s -c -d -l -x`, joined by single spaces; in
particular a lone type yields `"1"` and mode 5 with setpoint and
charge/discharge limits yields `"5 -s 3000 -c 4000 -d 5000"`. -/
theorem c7_build_schedule_command (e : ScheduleEntry) :
    _build_schedule_command e = specScheduleCommand e ∧
    _build_schedule_command { type := 1 } = "1" ∧
    _build_schedule_command
      { type := 5, setpoint := some 3000, max_charge := some 4000, max_discharge := some 5000 } =
      "5 -s 3000 -c 4000 -d 5000" := by
  refine ⟨?_, rfl, rfl⟩
  obtain ⟨t, f, to_, mn, mx, sp, mc, md, il, xl⟩ := e
  cases f <;> cases to_ <;> cases mn <;> cases mx <;> cases sp <;> cases mc <;>
    cases md <;> cases il <;> cases xl <;> rfl

lemma schedCmds_tail (es : List ScheduleEntry) :
    ∀ n : Nat, (es.enumFrom (n + 1)).map
        (fun p => (if p.1 = 0 then "sched_set" else "sched_add") ++ " " ++
                  _build_schedule_command p.2) =
      es.map (fun x => "sched_add " ++ _build_schedule_command x) := by
  induction es with
  | nil => intro n; rfl
  | cons x xs ih =>
    intro n
    simp only [List.enumFrom, List.map_cons]
    rw [ih (n + 1)]
    simp

lemma schedCmds_eq_spec (entries : List ScheduleEntry) :
    schedCmds entries = specSchedCmds entries := by
  cases entries with
  | nil => rfl
  | cons e es =>
    simp only [schedCmds, specSchedCmds, List.enum, List.enumFrom, List.map_cons]
    rw [schedCmds_tail es 0]
    simp

lemma runConsoleSeq_all_ok (console : String → Except ApiErr Json)
    (respOf : String → Json) (hok : ∀ c, console c = .ok (respOf c)) :
    ∀ cs : List String, runConsoleSeq console cs = (.ok (cs.map respOf), cs) := by
  intro cs
  induction cs with
  | nil => rfl
  | cons c cs ih => simp [runConsoleSeq, hok c, ih]

/-- Claim C8: `set_schedule` with an empty list raises the validation
error before any network call; with `n` entries, once the local-mode
gate passes and every console command succeeds, it POSTs exactly the `n`
prefixed commands in list order (`sched_set` first, `sched_add` after)
and returns the `n` per-command results in the same order. -/
theorem c8_set_schedule (sched : Except ApiErr Json) (s : Json)
    (console : String → Except ApiErr Json) (respOf : String → Json)
    (entries : List ScheduleEntry) :
    set_schedule sched console [] = (.error .valueError, []) ∧
    (localMode s = true → entries ≠ [] → (∀ c, console c = .ok (respOf c)) →
      set_schedule (.ok s) console entries =
        (.ok ((specSchedCmds entries).map respOf),
         .getSchedule :: (specSchedCmds entries).map NetOp.consolePost)) := by
  refine ⟨rfl, ?_⟩
  intro hs hne hok
  cases entries with
  | nil => exact absurd rfl hne
  | cons e es =>
    have hrun := runConsoleSeq_all_ok console respOf hok (schedCmds (e :: es))
    rw [← schedCmds_eq_spec]
    simp [set_schedule, hs, hrun]

/-- Witness for C8: an empty list fails with no network operation, and
two entries yield `sched_set 1` then `sched_add 2` with two results. -/
theorem c8_set_schedule_witness :
    set_schedule (.error .notLocalMode) (fun _ => .ok .null) [] =
      (.error .valueError, []) ∧
    set_schedule (.ok (Json.obj [("local_mode", .bool true)])) (fun _ => .ok .null)
      [{ type := 1 }, { type := 2 }] =
      (.ok [.null, .null],
       [.getSchedule, .consolePost "sched_set 1", .consolePost "sched_add 2"]) := by
  have h := c8_set_schedule (.error .notLocalMode)
    (Json.obj [("local_mode", .bool true)]) (fun _ => .ok .null) (fun _ => .null)
    [{ type := 1 }, { type := 2 }]
  refine ⟨h.1, ?_⟩
  rw [h.2 rfl (List.cons_ne_nil _ _) (fun c => rfl)]
  rfl

/-- Claim C9's failing input evaluated on the code model: in local mode,
`set_grid_charge_discharge` invoked with no setpoint succeeds and sends
`sched_set 5` with no `-s` flag — exactly like its siblings — although
its own docstring and the service-layer schema declare `setpoint`
required. -/
theorem c9_setpoint_not_enforced :
    set_grid_charge_discharge (.ok (Json.obj [("local_mode", Json.bool true)]))
      none none none none none = .ok "sched_set 5" ∧
    set_charge (.ok (Json.obj [("local_mode", Json.bool true)])) none none none =
      .ok "sched_set 1" := ⟨rfl, rfl⟩

end Homevolt
